import Mathlib

/-!
Verification of the context module of rust-industrial-io
(libiio-sys/src/context.rs).

The module wraps a native, handle-based C library (libiio).  We embed it
shallowly:

* Rust strings are lists of bytes (one Nat per byte); CString conversion
  fails exactly when the byte 0 occurs in the list.
* Native pointers are Nat; a null pointer returned by the native library
  is modelled as none in the oracle below.
* The native library is an oracle structure Ffi, one field per entry
  point consumed by context.rs.  Within a single program state the native
  library is deterministic, which the oracle captures by being a pure
  function.  Fields keep the iio names of the C entry points.
* Machine-integer casts from the Rust source are explicit reductions:
  u64 arithmetic is mod 2 to the 64, the usize-to-c_uint and the
  c_uint-return narrowings are mod 2 to the 32 (64-bit target, where
  usize is 64 bits and c_uint is 32 bits).
* Every wrapper operation returns, next to its result, the list of
  native calls it performed, so that statements about which native entry
  points run (and with which arguments) are direct equalities on traces.
* The reference-count layer (Rc around InnerContext, whose Drop calls
  iio_context_destroy) is modelled as a small step machine on the number
  of live clones and the number of destroy calls performed.
-/

/-- Bytes of a Rust str or String, one Nat per byte. -/
abbrev Bytes := List Nat

/-- A non-null native pointer value. -/
abbrev Ptr := Nat

/-- One call into the native library, with the arguments the wrapper
passed.  Used to record traces of native calls. -/
inductive NativeCall where
  | createFromUri (uri : Bytes)
  | createNetwork (host : Bytes)
  | createXml (xml_file : Bytes)
  | createXmlMem (xml : Bytes) (len : Nat)
  | setTimeout (ctx : Ptr) (timeout_ms : Nat)
  | getDevice (ctx : Ptr) (idx : Nat)
  | findDevice (ctx : Ptr) (name : Bytes)
  deriving DecidableEq

/-- The native libiio library as a deterministic oracle: one field per
entry point used by context.rs.  A none result models a null pointer
return.  iio_context_get_devices_count returns a c_uint (32-bit) value;
the oracle returns a Nat and the wrapper reduces it mod 2 to the 32 when
reading it (see Context.num_devices).  iio_context_set_timeout returns a
signed status.  errno models Errno::last(), the thread-local error code
read right after a failing native call. -/
structure Ffi where
  iio_create_context_from_uri : Bytes → Option Ptr
  iio_create_network_context : Bytes → Option Ptr
  iio_create_xml_context : Bytes → Option Ptr
  iio_create_xml_context_mem : Bytes → Nat → Option Ptr
  iio_context_get_description : Ptr → Option String
  iio_context_set_timeout : Ptr → Nat → Int
  iio_context_get_devices_count : Ptr → Nat
  iio_context_get_device : Ptr → Nat → Option Ptr
  iio_context_find_device : Ptr → Bytes → Option Ptr
  errno : Int

/-- The error values context.rs can produce.
uriMsg is the formatted bail message of from_uri (it embeds the uri);
nulError is a CString NulError propagated with the question-mark
operator; indexOutOfRange is the bail message of get_device; sys is
SysError(Errno::last()). -/
inductive RsError where
  | uriMsg (uri : Bytes)
  | nulError
  | indexOutOfRange
  | sys (errno : Int)
  deriving DecidableEq

/-- The error taxonomy of the specification (section 7): argument error,
system error, range error. -/
inductive ErrKind where
  | argument
  | system
  | range
  deriving DecidableEq

/-- Modelled from the spec: the error-kind classification of section 7.
The error type itself lives outside src (error-chain setup of the crate
root), so the mapping of the concrete error values onto the taxonomy
follows the words of the spec: errors detected at CString conversion are
argument errors, null-handle and negative-status failures carrying errno
are system errors, and the get_device failure is the range error. -/
def classify : RsError → ErrKind
  | RsError.uriMsg _ => ErrKind.argument
  | RsError.nulError => ErrKind.argument
  | RsError.indexOutOfRange => ErrKind.range
  | RsError.sys _ => ErrKind.system

/-- Rust CString::new: fails (with NulError) exactly when the input
contains an embedded null byte; otherwise the bytes pass through
unchanged (the terminating null the C side sees is appended by CString
and is not part of the value). -/
def CString.new (s : Bytes) : Option Bytes :=
  if 0 ∈ s then none else some s

/-- A Context wraps (through Rc of InnerContext) the native context
pointer.  For the functional operations only the pointer matters; the
reference-count layer is modelled separately (RcState below). -/
structure Context where
  ctx : Ptr
  deriving DecidableEq

/-- A Device as built by context.rs: the native device pointer together
with a clone of the parent Context. -/
structure Device where
  dev : Ptr
  ctx : Context
  deriving DecidableEq

/-- Context::from_uri.  CString conversion failure bails with a
formatted message (before any native call); a null native handle bails
with SysError(Errno::last()). -/
def Context.from_uri (f : Ffi) (uri : Bytes) :
    Except RsError Context × List NativeCall :=
  match CString.new uri with
  | none => (Except.error (RsError.uriMsg uri), [])
  | some u =>
    match f.iio_create_context_from_uri u with
    | none => (Except.error (RsError.sys f.errno), [NativeCall.createFromUri u])
    | some p => (Except.ok (Context.mk p), [NativeCall.createFromUri u])

/-- Context::create_from_uri.  CString conversion failure propagates the
NulError with the question-mark operator (before any native call); a
null native handle bails with SysError(Errno::last()). -/
def Context.create_from_uri (f : Ffi) (uri : Bytes) :
    Except RsError Context × List NativeCall :=
  match CString.new uri with
  | none => (Except.error RsError.nulError, [])
  | some u =>
    match f.iio_create_context_from_uri u with
    | none => (Except.error (RsError.sys f.errno), [NativeCall.createFromUri u])
    | some p => (Except.ok (Context.mk p), [NativeCall.createFromUri u])

/-- Context::create_network. -/
def Context.create_network (f : Ffi) (host : Bytes) :
    Except RsError Context × List NativeCall :=
  match CString.new host with
  | none => (Except.error RsError.nulError, [])
  | some h =>
    match f.iio_create_network_context h with
    | none => (Except.error (RsError.sys f.errno), [NativeCall.createNetwork h])
    | some p => (Except.ok (Context.mk p), [NativeCall.createNetwork h])

/-- Context::create_xml. -/
def Context.create_xml (f : Ffi) (xml_file : Bytes) :
    Except RsError Context × List NativeCall :=
  match CString.new xml_file with
  | none => (Except.error RsError.nulError, [])
  | some x =>
    match f.iio_create_xml_context x with
    | none => (Except.error (RsError.sys f.errno), [NativeCall.createXml x])
    | some p => (Except.ok (Context.mk p), [NativeCall.createXml x])

/-- Context::create_xml_mem.  The byte length of the original string is
taken before conversion and passed to the native parser next to the
pointer. -/
def Context.create_xml_mem (f : Ffi) (xml : Bytes) :
    Except RsError Context × List NativeCall :=
  let n := xml.length
  match CString.new xml with
  | none => (Except.error RsError.nulError, [])
  | some x =>
    match f.iio_create_xml_context_mem x n with
    | none => (Except.error (RsError.sys f.errno), [NativeCall.createXmlMem x n])
    | some p => (Except.ok (Context.mk p), [NativeCall.createXmlMem x n])

/-- Modelled from the spec: cstring_opt (defined in the crate root, not
under src) turns a possibly-null C string pointer into an optional UTF-8
string, none for a null pointer.  The oracle already hands the decoded
string content of a non-null pointer, so the function is the identity on
that option. -/
def cstring_opt (p : Option String) : Option String := p

/-- Context::description: cstring_opt(...).unwrap_or_default(), so the
empty string substitutes for a null native description pointer.  Total:
returns a String, never an error. -/
def Context.description (f : Ffi) (c : Context) : String :=
  (cstring_opt (f.iio_context_get_description c.ctx)).getD ""

/-- Rust std Duration: whole seconds (u64) and a sub-second nanosecond
part (u32, below 10^9 for values Rust can construct). -/
structure Duration where
  secs : Nat
  nanos : Nat
  deriving DecidableEq

/-- Duration::as_secs. -/
def Duration.as_secs (d : Duration) : Nat := d.secs

/-- Duration::subsec_millis: the sub-second part in whole milliseconds,
truncating finer precision. -/
def Duration.subsec_millis (d : Duration) : Nat := d.nanos / 1000000

/-- Duration::from_millis. -/
def Duration.from_millis (millis : Nat) : Duration :=
  Duration.mk (millis / 1000) ((millis % 1000) * 1000000)

/-- Duration::from_secs. -/
def Duration.from_secs (secs : Nat) : Duration := Duration.mk secs 0

/-- The internal millisecond value computed by Context::set_timeout:
1000 * timeout.as_secs() + u64::from(timeout.subsec_millis()), in u64
arithmetic, hence reduced mod 2 to the 64. -/
def timeout_ms (timeout : Duration) : Nat :=
  (1000 * timeout.as_secs + timeout.subsec_millis) % 2 ^ 64

/-- Context::set_timeout: computes the millisecond value, narrows it to
c_uint (the `as c_uint` cast, mod 2 to the 32), calls the native entry
point and fails with SysError(Errno::last()) on a negative status. -/
def Context.set_timeout (f : Ffi) (c : Context) (timeout : Duration) :
    Except RsError Unit × List NativeCall :=
  let ms := timeout_ms timeout % 2 ^ 32
  let ret := f.iio_context_set_timeout c.ctx ms
  (if ret < 0 then Except.error (RsError.sys f.errno) else Except.ok (),
    [NativeCall.setTimeout c.ctx ms])

/-- Context::num_devices: the native count is a c_uint (32-bit), widened
to usize; the oracle value is reduced mod 2 to the 32 to embed the
32-bit return type. -/
def Context.num_devices (f : Ffi) (c : Context) : Nat :=
  f.iio_context_get_devices_count c.ctx % 2 ^ 32

/-- Context::get_device: the usize index is narrowed to c_uint by the
`as c_uint` cast (mod 2 to the 32) before the native lookup; a null
result bails with the index-out-of-range message, otherwise the Device
holds the native pointer and a clone of this Context. -/
def Context.get_device (f : Ffi) (c : Context) (idx : Nat) :
    Except RsError Device × List NativeCall :=
  match f.iio_context_get_device c.ctx (idx % 2 ^ 32) with
  | none =>
    (Except.error RsError.indexOutOfRange, [NativeCall.getDevice c.ctx (idx % 2 ^ 32)])
  | some d =>
    (Except.ok (Device.mk d c), [NativeCall.getDevice c.ctx (idx % 2 ^ 32)])

/-- Outcome of Context::find_device: the CString conversion is
unwrapped, so an embedded null byte aborts with a panic instead of
returning an error value. -/
inductive FindOutcome where
  | panicked
  | result (d : Option Device)
  deriving DecidableEq

/-- Context::find_device: CString::new(name).unwrap() panics on an
embedded null byte before any native call; otherwise the native lookup
runs and a null result is None (not an error). -/
def Context.find_device (f : Ffi) (c : Context) (name : Bytes) :
    FindOutcome × List NativeCall :=
  match CString.new name with
  | none => (FindOutcome.panicked, [])
  | some nm =>
    match f.iio_context_find_device c.ctx nm with
    | none => (FindOutcome.result none, [NativeCall.findDevice c.ctx nm])
    | some d =>
      (FindOutcome.result (some (Device.mk d c)), [NativeCall.findDevice c.ctx nm])

/-- DeviceIterator: the borrowed Context and the cursor index. -/
structure DeviceIterator where
  ctx : Context
  idx : Nat
  deriving DecidableEq

/-- Context::devices: an iterator over this context positioned at
index 0. -/
def Context.devices (c : Context) : DeviceIterator :=
  DeviceIterator.mk c 0

/-- DeviceIterator::next: get_device at the cursor; on success emit the
device and advance the cursor, on failure emit nothing and leave the
iterator exactly as it was (no terminal flag exists).  The native calls
made are returned as the third component. -/
def DeviceIterator.next (f : Ffi) (it : DeviceIterator) :
    Option Device × DeviceIterator × List NativeCall :=
  let r := Context.get_device f it.ctx it.idx
  match r.1 with
  | Except.ok dev => (some dev, DeviceIterator.mk it.ctx (it.idx + 1), r.2)
  | Except.error _ => (none, it, r.2)

/-- The iterator state after k next calls, starting from devices(). -/
def iterState (f : Ffi) (c : Context) : Nat → DeviceIterator
  | 0 => Context.devices c
  | k + 1 => (DeviceIterator.next f (iterState f c k)).2.1

/-- The item produced by the (k+1)-th next call, counting from the
iterator returned by devices(). -/
def iterOut (f : Ffi) (c : Context) (k : Nat) : Option Device :=
  (DeviceIterator.next f (iterState f c k)).1

/-- State of the reference-count layer: the number of live Context
clones sharing one InnerContext, and the number of native destroy calls
performed so far on its handle. -/
structure RcState where
  live : Nat
  destroys : Nat
  deriving DecidableEq

/-- An event on the shared context: cloning one of the live handles, or
dropping one (by scope exit, or by the consuming destroy(), whose body
is empty and whose whole effect is the drop of its receiver). -/
inductive RcOp where
  | clone
  | drop
  deriving DecidableEq

/-- Context::destroy consumes self; its only effect is dropping the
consumed share. -/
def Context.destroy : RcOp := RcOp.drop

/-- One step of the reference-count layer: clone increments the live
count; drop decrements it, and when the dropped share is the last one
the Rc drops the InnerContext, whose Drop impl calls
iio_context_destroy exactly once. -/
def rcStep (s : RcState) : RcOp → RcState
  | RcOp.clone => RcState.mk (s.live + 1) s.destroys
  | RcOp.drop =>
    if s.live = 1 then RcState.mk 0 (s.destroys + 1)
    else RcState.mk (s.live - 1) s.destroys

/-- Run a sequence of clone and drop events. -/
def rcRun (s : RcState) : List RcOp → RcState
  | [] => s
  | op :: ops => rcRun (rcStep s op) ops

/-- A sequence of events is well formed when every event acts on a live
handle: Rust can only clone or drop a value that exists. -/
def rcWf (s : RcState) : List RcOp → Bool
  | [] => true
  | op :: ops => decide (0 < s.live) && rcWf (rcStep s op) ops

deriving instance DecidableEq for Except

/-- Unfolding equation for set_timeout (the let bindings zeta-reduced). -/
lemma set_timeout_unfold (f : Ffi) (c : Context) (timeout : Duration) :
    Context.set_timeout f c timeout =
      (if f.iio_context_set_timeout c.ctx (timeout_ms timeout % 2 ^ 32) < 0
          then Except.error (RsError.sys f.errno) else Except.ok (),
        [NativeCall.setTimeout c.ctx (timeout_ms timeout % 2 ^ 32)]) := rfl

/-- get_device when the native lookup is null. -/
lemma get_device_eq_none (f : Ffi) (c : Context) (idx : Nat)
    (h : f.iio_context_get_device c.ctx (idx % 2 ^ 32) = none) :
    Context.get_device f c idx =
      (Except.error RsError.indexOutOfRange,
        [NativeCall.getDevice c.ctx (idx % 2 ^ 32)]) := by
  unfold Context.get_device
  rw [h]

/-- get_device when the native lookup returns a device pointer. -/
lemma get_device_eq_some (f : Ffi) (c : Context) (idx : Nat) (p : Ptr)
    (h : f.iio_context_get_device c.ctx (idx % 2 ^ 32) = some p) :
    Context.get_device f c idx =
      (Except.ok (Device.mk p c), [NativeCall.getDevice c.ctx (idx % 2 ^ 32)]) := by
  unfold Context.get_device
  rw [h]

/-- A concrete oracle with two devices, used to evaluate theorems on
closed inputs. -/
def probeFfi : Ffi where
  iio_create_context_from_uri := fun _ => some 11
  iio_create_network_context := fun _ => some 12
  iio_create_xml_context := fun _ => some 13
  iio_create_xml_context_mem := fun _ _ => some 14
  iio_context_get_description := fun _ => some "iio probe"
  iio_context_set_timeout := fun _ _ => 0
  iio_context_get_devices_count := fun _ => 2
  iio_context_get_device := fun _ i => if i < 2 then some (100 + i) else none
  iio_context_find_device := fun _ _ => some 42
  errno := -19

/-- A concrete oracle on which every native call fails. -/
def failFfi : Ffi where
  iio_create_context_from_uri := fun _ => none
  iio_create_network_context := fun _ => none
  iio_create_xml_context := fun _ => none
  iio_create_xml_context_mem := fun _ _ => none
  iio_context_get_description := fun _ => none
  iio_context_set_timeout := fun _ _ => -1
  iio_context_get_devices_count := fun _ => 0
  iio_context_get_device := fun _ _ => none
  iio_context_find_device := fun _ _ => none
  errno := -2

/-- A concrete oracle with exactly one device, honouring the native
contract that the lookup is null exactly at received indices at or above
the count. -/
def oneDevFfi : Ffi where
  iio_create_context_from_uri := fun _ => none
  iio_create_network_context := fun _ => none
  iio_create_xml_context := fun _ => none
  iio_create_xml_context_mem := fun _ _ => none
  iio_context_get_description := fun _ => none
  iio_context_set_timeout := fun _ _ => 0
  iio_context_get_devices_count := fun _ => 1
  iio_context_get_device := fun _ i => if i < 1 then some 50 else none
  iio_context_find_device := fun _ _ => none
  errno := -5

/-- A concrete context handle. -/
def probeCtx : Context := Context.mk 7

/-- A concrete context handle for the one-device oracle. -/
def oneDevCtx : Context := Context.mk 5

/-- C2: on an input containing a null byte, each of the five
string-taking factory operations returns an error before any native
call (the trace is empty) and that error classifies as an argument
error. -/
theorem factories_null_byte (f : Ffi) (s : Bytes) (h : 0 ∈ s) :
    Context.from_uri f s = (Except.error (RsError.uriMsg s), [])
    ∧ Context.create_from_uri f s = (Except.error RsError.nulError, [])
    ∧ Context.create_network f s = (Except.error RsError.nulError, [])
    ∧ Context.create_xml f s = (Except.error RsError.nulError, [])
    ∧ Context.create_xml_mem f s = (Except.error RsError.nulError, [])
    ∧ classify (RsError.uriMsg s) = ErrKind.argument
    ∧ classify RsError.nulError = ErrKind.argument := by
  refine ⟨?_, ?_, ?_, ?_, ?_, rfl, rfl⟩ <;>
    simp [Context.from_uri, Context.create_from_uri, Context.create_network,
      Context.create_xml, Context.create_xml_mem, CString.new, h]

/-- C2 witness: the factory operations evaluated at a concrete
null-containing input. -/
theorem factories_null_byte_witness :
    Context.from_uri probeFfi [0] = (Except.error (RsError.uriMsg [0]), [])
    ∧ Context.create_xml_mem probeFfi [0] = (Except.error RsError.nulError, []) := by
  have h := factories_null_byte probeFfi [0] (by decide)
  exact ⟨h.1, h.2.2.2.2.1⟩

/-- C3: from_uri and create_from_uri make the same native calls on the
same argument, succeed on exactly the same inputs with an equal Context,
fail on exactly the same inputs, and their failures carry the same error
classification. -/
theorem from_uri_equiv (f : Ffi) (uri : Bytes) :
    (Context.from_uri f uri).2 = (Context.create_from_uri f uri).2
    ∧ (∀ c, (Context.from_uri f uri).1 = Except.ok c
        ↔ (Context.create_from_uri f uri).1 = Except.ok c)
    ∧ ((∃ e, (Context.from_uri f uri).1 = Except.error e)
        ↔ ∃ e, (Context.create_from_uri f uri).1 = Except.error e)
    ∧ (∀ e1 e2, (Context.from_uri f uri).1 = Except.error e1 →
        (Context.create_from_uri f uri).1 = Except.error e2 →
        classify e1 = classify e2) := by
  unfold Context.from_uri Context.create_from_uri
  cases hcs : CString.new uri with
  | none =>
    refine ⟨rfl, by simp, by simp, ?_⟩
    intro e1 e2 h1 h2
    simp at h1 h2
    subst h1
    subst h2
    rfl
  | some u =>
    cases hn : f.iio_create_context_from_uri u with
    | none =>
      refine ⟨rfl, by simp [hn], by simp [hn], ?_⟩
      intro e1 e2 h1 h2
      simp [hn] at h1 h2
      subst h1
      subst h2
      rfl
    | some p =>
      refine ⟨rfl, by simp [hn], by simp [hn], ?_⟩
      intro e1 e2 h1 h2
      simp [hn] at h1

/-- C3 witness: at a concrete null-containing URI the two operations
produce equally classified errors. -/
theorem from_uri_equiv_witness :
    classify (RsError.uriMsg [65, 0]) = classify RsError.nulError := by
  exact (from_uri_equiv probeFfi [65, 0]).2.2.2 (RsError.uriMsg [65, 0])
    RsError.nulError (by simp [Context.from_uri, CString.new])
    (by simp [Context.create_from_uri, CString.new])

/-- C7: description never fails; it substitutes the empty string for a
null native description pointer and otherwise returns the string the
pointer holds. -/
theorem description_total (f : Ffi) (c : Context) :
    (f.iio_context_get_description c.ctx = none → Context.description f c = "")
    ∧ (∀ s, f.iio_context_get_description c.ctx = some s →
        Context.description f c = s) := by
  constructor
  · intro h
    simp [Context.description, cstring_opt, h]
  · intro s h
    simp [Context.description, cstring_opt, h]

/-- C7 witness: a null description pointer yields the empty string and a
non-null one yields its content. -/
theorem description_total_witness :
    Context.description failFfi probeCtx = ""
    ∧ Context.description probeFfi probeCtx = "iio probe" :=
  ⟨(description_total failFfi probeCtx).1 rfl,
    (description_total probeFfi probeCtx).2 "iio probe" rfl⟩

/-- C8: find_device on a name with an embedded null byte panics (the
unwrapped CString conversion) before any native call; on a name without
a null byte the conversion cannot fail and the native lookup runs, its
null result mapping to None rather than an error. -/
theorem find_device_unwrap (f : Ffi) (c : Context) (name : Bytes) :
    (0 ∈ name → Context.find_device f c name = (FindOutcome.panicked, []))
    ∧ (0 ∉ name →
        (Context.find_device f c name).1 =
          FindOutcome.result
            ((f.iio_context_find_device c.ctx name).map (fun d => Device.mk d c))
        ∧ (Context.find_device f c name).2 = [NativeCall.findDevice c.ctx name]) := by
  constructor
  · intro h
    simp [Context.find_device, CString.new, h]
  · intro h
    cases hn : f.iio_context_find_device c.ctx name with
    | none => simp [Context.find_device, CString.new, h, hn]
    | some d => simp [Context.find_device, CString.new, h, hn]

/-- C8 witness: find_device evaluated at a null-containing and at a
null-free concrete name. -/
theorem find_device_unwrap_witness :
    Context.find_device probeFfi probeCtx [65, 0] = (FindOutcome.panicked, [])
    ∧ (Context.find_device probeFfi probeCtx [65]).1 =
        FindOutcome.result (some (Device.mk 42 probeCtx))
    ∧ (Context.find_device probeFfi probeCtx [65]).2 =
        [NativeCall.findDevice probeCtx.ctx [65]] := by
  have h1 := (find_device_unwrap probeFfi probeCtx [65, 0]).1 (by decide)
  have h2 := (find_device_unwrap probeFfi probeCtx [65]).2 (by decide)
  refine ⟨h1, ?_, h2.2⟩
  rw [h2.1]
  rfl

/-- C4 counterexample: at a Duration near the u64 limit the computed
internal millisecond value is strictly below seconds times 1000 plus the
sub-second milliseconds, because the u64 multiplication wraps, so the
claimed identity fails for this Duration. -/
theorem set_timeout_counterexample :
    timeout_ms (Duration.mk (2 ^ 64 - 1) 0)
      < 1000 * Duration.as_secs (Duration.mk (2 ^ 64 - 1) 0)
        + Duration.subsec_millis (Duration.mk (2 ^ 64 - 1) 0) := by
  decide

/-- C4 amended: for every Duration whose millisecond count fits in u64
(no overflow of the u64 arithmetic), set_timeout computes the internal
millisecond value as seconds times 1000 plus whole sub-second
milliseconds, truncating finer precision; from_millis 1500 gives 1500,
from_secs 2 gives 2000, the zero duration gives 0, and the operation
fails with a system error exactly when the native call returns a
negative status. -/
theorem set_timeout_amended (f : Ffi) (c : Context) (d : Duration)
    (hfit : 1000 * Duration.as_secs d + Duration.subsec_millis d < 2 ^ 64) :
    timeout_ms d = 1000 * Duration.as_secs d + Duration.subsec_millis d
    ∧ timeout_ms (Duration.from_millis 1500) = 1500
    ∧ timeout_ms (Duration.from_secs 2) = 2000
    ∧ timeout_ms (Duration.mk 0 0) = 0
    ∧ ((∃ e, (Context.set_timeout f c d).1 = Except.error e
          ∧ classify e = ErrKind.system)
        ↔ f.iio_context_set_timeout c.ctx (timeout_ms d % 2 ^ 32) < 0) := by
  refine ⟨Nat.mod_eq_of_lt hfit, by decide, by decide, by decide, ?_⟩
  rw [set_timeout_unfold]
  by_cases hret : f.iio_context_set_timeout c.ctx (timeout_ms d % 2 ^ 32) < 0
  · rw [if_pos hret]
    constructor
    · intro _
      exact hret
    · intro _
      exact ⟨RsError.sys f.errno, rfl, rfl⟩
  · rw [if_neg hret]
    constructor
    · rintro ⟨e, he, _⟩
      exact Except.noConfusion (show Except.ok () = Except.error e from he)
    · intro hlt
      exact absurd hlt hret

/-- C4 amended witness: the formula evaluated at from_millis 1500. -/
theorem set_timeout_amended_witness :
    timeout_ms (Duration.from_millis 1500) =
      1000 * Duration.as_secs (Duration.from_millis 1500)
        + Duration.subsec_millis (Duration.from_millis 1500) :=
  (set_timeout_amended failFfi probeCtx (Duration.from_millis 1500) (by decide)).1

/-- C10: when the computed millisecond count is at least 2 to the 32,
the native call receives the count reduced mod 2 to the 32 (the
`as c_uint` narrowing), a value strictly smaller than the computed
count. -/
theorem set_timeout_truncation (f : Ffi) (c : Context) (d : Duration)
    (h : 2 ^ 32 ≤ timeout_ms d) :
    (Context.set_timeout f c d).2 =
      [NativeCall.setTimeout c.ctx (timeout_ms d % 2 ^ 32)]
    ∧ timeout_ms d % 2 ^ 32 < timeout_ms d := by
  refine ⟨rfl, ?_⟩
  have h32 : timeout_ms d % 2 ^ 32 < 2 ^ 32 :=
    Nat.mod_lt _ (by norm_num)
  omega

/-- C10 witness: a 4294968-second timeout computes 4294968000
milliseconds, and the native call receives 704, its reduction mod 2 to
the 32. -/
theorem set_timeout_truncation_witness :
    (Context.set_timeout failFfi probeCtx (Duration.from_secs 4294968)).2 =
      [NativeCall.setTimeout probeCtx.ctx
        (timeout_ms (Duration.from_secs 4294968) % 2 ^ 32)]
    ∧ timeout_ms (Duration.from_secs 4294968) % 2 ^ 32 = 704 :=
  ⟨(set_timeout_truncation failFfi probeCtx (Duration.from_secs 4294968)
      (by decide)).1, by decide⟩

/-- C5 counterexample: on an oracle honouring the native contract (one
device, lookup null at received indices at or above 1), the native
lookup at index 2 to the 32 is null and that index is at or above
num_devices, yet get_device succeeds there, because the index is
narrowed to c_uint (becoming 0) before the native call. -/
theorem get_device_counterexample :
    oneDevFfi.iio_context_get_device oneDevCtx.ctx (2 ^ 32) = none
    ∧ Context.num_devices oneDevFfi oneDevCtx ≤ 2 ^ 32
    ∧ (Context.get_device oneDevFfi oneDevCtx (2 ^ 32)).1 =
        Except.ok (Device.mk 50 oneDevCtx) := by
  refine ⟨by decide, by decide, ?_⟩
  rw [get_device_eq_some oneDevFfi oneDevCtx (2 ^ 32) 50 (by decide)]

/-- C5 amended: under the native contract (lookup null exactly at
received indices at or above num_devices), get_device idx fails with the
range error exactly when idx reduced mod 2 to the 32 (the c_uint
narrowing of the index) is at or above num_devices; on success the
returned Device wraps the native device pointer of that reduced index
and holds a clone of this Context. -/
theorem get_device_amended (f : Ffi) (c : Context) (idx : Nat)
    (hnat : ∀ i, f.iio_context_get_device c.ctx i = none
      ↔ Context.num_devices f c ≤ i) :
    ((Context.get_device f c idx).1 = Except.error RsError.indexOutOfRange
      ↔ Context.num_devices f c ≤ idx % 2 ^ 32)
    ∧ classify RsError.indexOutOfRange = ErrKind.range
    ∧ (∀ d, (Context.get_device f c idx).1 = Except.ok d →
        d.ctx = c ∧ f.iio_context_get_device c.ctx (idx % 2 ^ 32) = some d.dev) := by
  refine ⟨?_, rfl, ?_⟩
  · cases hc : f.iio_context_get_device c.ctx (idx % 2 ^ 32) with
    | none =>
      rw [get_device_eq_none f c idx hc]
      constructor
      · intro _
        exact (hnat (idx % 2 ^ 32)).mp hc
      · intro _
        rfl
    | some d =>
      rw [get_device_eq_some f c idx d hc]
      constructor
      · intro h
        exact Except.noConfusion
          (show Except.ok (Device.mk d c) = Except.error RsError.indexOutOfRange from h)
      · intro hle
        exfalso
        have h0 := (hnat (idx % 2 ^ 32)).mpr hle
        rw [hc] at h0
        exact Option.noConfusion h0
  · intro d hd
    cases hc : f.iio_context_get_device c.ctx (idx % 2 ^ 32) with
    | none =>
      rw [get_device_eq_none f c idx hc] at hd
      exact Except.noConfusion
        (show Except.error RsError.indexOutOfRange = Except.ok d from hd)
    | some p =>
      rw [get_device_eq_some f c idx p hc] at hd
      have hd2 : Except.ok (Device.mk p c) = Except.ok d := hd
      injection hd2 with hd3
      subst hd3
      exact ⟨rfl, rfl⟩

/-- C5 amended witness: on the one-device oracle, index 1 fails with the
range error and index 0 succeeds with a Device holding this Context. -/
theorem get_device_amended_witness :
    (Context.get_device oneDevFfi oneDevCtx 1).1 =
      Except.error RsError.indexOutOfRange
    ∧ (Context.get_device oneDevFfi oneDevCtx 0).1 =
        Except.ok (Device.mk 50 oneDevCtx) := by
  have hnat : ∀ i, oneDevFfi.iio_context_get_device oneDevCtx.ctx i = none
      ↔ Context.num_devices oneDevFfi oneDevCtx ≤ i := by
    intro i
    by_cases hi : i < 1
    · simp [oneDevFfi, oneDevCtx, Context.num_devices, hi]
      omega
    · simp [oneDevFfi, oneDevCtx, Context.num_devices, hi]
      omega
  have h := get_device_amended oneDevFfi oneDevCtx 1 hnat
  exact ⟨h.1.mpr (by decide), by decide⟩

/-- num_devices is a widened c_uint, hence below 2 to the 32. -/
lemma num_devices_lt_two_pow (f : Ffi) (c : Context) :
    Context.num_devices f c < 2 ^ 32 :=
  Nat.mod_lt _ (by norm_num)

/-- next on an iterator whose current native lookup yields a device. -/
lemma next_eq_of_some (f : Ffi) (cc : Context) (k : Nat) (p : Ptr)
    (h : f.iio_context_get_device cc.ctx (k % 2 ^ 32) = some p) :
    DeviceIterator.next f (DeviceIterator.mk cc k) =
      (some (Device.mk p cc), DeviceIterator.mk cc (k + 1),
        [NativeCall.getDevice cc.ctx (k % 2 ^ 32)]) := by
  simp only [DeviceIterator.next]
  rw [get_device_eq_some f cc k p h]

/-- next on an iterator whose current native lookup is null. -/
lemma next_eq_of_none (f : Ffi) (cc : Context) (k : Nat)
    (h : f.iio_context_get_device cc.ctx (k % 2 ^ 32) = none) :
    DeviceIterator.next f (DeviceIterator.mk cc k) =
      (none, DeviceIterator.mk cc k, [NativeCall.getDevice cc.ctx (k % 2 ^ 32)]) := by
  simp only [DeviceIterator.next]
  rw [get_device_eq_none f cc k h]

/-- When the native lookup succeeds exactly below num_devices, every
index at or above num_devices looks up null. -/
lemma lookup_none_of_ge (f : Ffi) (c : Context)
    (hnat : ∀ i, (f.iio_context_get_device c.ctx i).isSome
      ↔ i < Context.num_devices f c)
    (i : Nat) (hge : Context.num_devices f c ≤ i) :
    f.iio_context_get_device c.ctx i = none := by
  cases ho : f.iio_context_get_device c.ctx i with
  | none => rfl
  | some q =>
    exfalso
    have hlt : i < Context.num_devices f c := by
      apply (hnat i).mp
      rw [ho]
      rfl
    exact absurd hlt (Nat.not_lt.mpr hge)

/-- Under the native contract the iterator cursor after k next calls is
the minimum of k and num_devices: it advances once per produced device
and then stays put forever. -/
lemma iterState_idx (f : Ffi) (c : Context)
    (hnat : ∀ i, (f.iio_context_get_device c.ctx i).isSome
      ↔ i < Context.num_devices f c)
    (k : Nat) :
    iterState f c k = DeviceIterator.mk c (min k (Context.num_devices f c)) := by
  induction k with
  | zero =>
    simp [iterState, Context.devices]
  | succ k ih =>
    show (DeviceIterator.next f (iterState f c k)).2.1 =
      DeviceIterator.mk c (min (k + 1) (Context.num_devices f c))
    rw [ih]
    by_cases hk : k < Context.num_devices f c
    · have hk32 : k % 2 ^ 32 = k :=
        Nat.mod_eq_of_lt (lt_trans hk (num_devices_lt_two_pow f c))
      obtain ⟨p, hp⟩ := Option.isSome_iff_exists.mp ((hnat k).mpr hk)
      have hp2 : f.iio_context_get_device c.ctx (k % 2 ^ 32) = some p := by
        rw [hk32]
        exact hp
      rw [Nat.min_eq_left (le_of_lt hk), next_eq_of_some f c k p hp2,
        Nat.min_eq_left hk]
    · have hle : Context.num_devices f c ≤ k := Nat.le_of_not_lt hk
      have hn32 : Context.num_devices f c % 2 ^ 32 = Context.num_devices f c :=
        Nat.mod_eq_of_lt (num_devices_lt_two_pow f c)
      have hnone : f.iio_context_get_device c.ctx
          (Context.num_devices f c % 2 ^ 32) = none := by
        rw [hn32]
        exact lookup_none_of_ge f c hnat _ (le_refl _)
      rw [Nat.min_eq_right hle, next_eq_of_none f c (Context.num_devices f c) hnone,
        Nat.min_eq_right (le_trans hle (Nat.le_succ k))]

/-- C1: when the native device lookup succeeds exactly at indices below
num_devices, the k-th next call on the iterator returned by devices()
produces exactly the device of native index k while k is below
num_devices, in index order, and nothing from then on: after the first
failure every later call yields no item, never re-yields and never
resumes. -/
theorem devices_iter_spec (f : Ffi) (c : Context)
    (hnat : ∀ i, (f.iio_context_get_device c.ctx i).isSome
      ↔ i < Context.num_devices f c)
    (k : Nat) :
    iterOut f c k =
      Option.map (fun p => Device.mk p c) (f.iio_context_get_device c.ctx k) := by
  unfold iterOut
  rw [iterState_idx f c hnat k]
  by_cases hk : k < Context.num_devices f c
  · have hk32 : k % 2 ^ 32 = k :=
      Nat.mod_eq_of_lt (lt_trans hk (num_devices_lt_two_pow f c))
    obtain ⟨p, hp⟩ := Option.isSome_iff_exists.mp ((hnat k).mpr hk)
    have hp2 : f.iio_context_get_device c.ctx (k % 2 ^ 32) = some p := by
      rw [hk32]
      exact hp
    rw [Nat.min_eq_left (le_of_lt hk), next_eq_of_some f c k p hp2, hp]
    rfl
  · have hle : Context.num_devices f c ≤ k := Nat.le_of_not_lt hk
    have hn32 : Context.num_devices f c % 2 ^ 32 = Context.num_devices f c :=
      Nat.mod_eq_of_lt (num_devices_lt_two_pow f c)
    have hnone : f.iio_context_get_device c.ctx
        (Context.num_devices f c % 2 ^ 32) = none := by
      rw [hn32]
      exact lookup_none_of_ge f c hnat _ (le_refl _)
    rw [Nat.min_eq_right hle, next_eq_of_none f c (Context.num_devices f c) hnone,
      lookup_none_of_ge f c hnat k hle]
    rfl

/-- C1 witness: on the two-device oracle the iterator yields device 100
then device 101 (each holding the context), and nothing at calls 3 and
6. -/
theorem devices_iter_spec_witness :
    iterOut probeFfi probeCtx 0 = some (Device.mk 100 probeCtx)
    ∧ iterOut probeFfi probeCtx 1 = some (Device.mk 101 probeCtx)
    ∧ iterOut probeFfi probeCtx 2 = none
    ∧ iterOut probeFfi probeCtx 5 = none := by
  have hn : Context.num_devices probeFfi probeCtx = 2 := rfl
  have hnat : ∀ i, (probeFfi.iio_context_get_device probeCtx.ctx i).isSome
      ↔ i < Context.num_devices probeFfi probeCtx := by
    intro i
    rw [hn]
    by_cases hi : i < 2
    · simp [probeFfi, hi]
    · simp [probeFfi, hi]
  have h := devices_iter_spec probeFfi probeCtx hnat
  refine ⟨?_, ?_, ?_, ?_⟩
  · rw [h 0]
    rfl
  · rw [h 1]
    rfl
  · rw [h 2]
    rfl
  · rw [h 5]
    rfl

/-- C9: when get_device fails at the current cursor, next returns no
item and the iterator is returned with every field unchanged (no
terminal flag exists to record the failure), so a second next call
repeats the very same native lookup at the very same index and returns
the very same triple. -/
theorem next_failure_frame (f : Ffi) (it : DeviceIterator)
    (h : ∃ e, (Context.get_device f it.ctx it.idx).1 = Except.error e) :
    DeviceIterator.next f it =
      (none, it, [NativeCall.getDevice it.ctx.ctx (it.idx % 2 ^ 32)])
    ∧ DeviceIterator.next f ((DeviceIterator.next f it).2.1) =
        DeviceIterator.next f it := by
  obtain ⟨cc, k⟩ := it
  obtain ⟨e, he⟩ := h
  cases hn : f.iio_context_get_device cc.ctx (k % 2 ^ 32) with
  | some p =>
    rw [get_device_eq_some f cc k p hn] at he
    exact Except.noConfusion
      (show Except.ok (Device.mk p cc) = Except.error e from he)
  | none =>
    have h1 := next_eq_of_none f cc k hn
    refine ⟨h1, ?_⟩
    rw [h1]
    exact h1

/-- C9 witness: next evaluated on the all-failing oracle at cursor 3
returns no item, the unchanged iterator, and the lookup trace at
index 3. -/
theorem next_failure_frame_witness :
    DeviceIterator.next failFfi (DeviceIterator.mk probeCtx 3) =
      (none, DeviceIterator.mk probeCtx 3,
        [NativeCall.getDevice probeCtx.ctx (3 % 2 ^ 32)]) :=
  (next_failure_frame failFfi (DeviceIterator.mk probeCtx 3)
    ⟨RsError.indexOutOfRange, rfl⟩).1

/-- While any clone is alive no destroy has happened, and once the live
count reaches zero exactly one has. -/
lemma rcRun_destroys : ∀ (ops : List RcOp) (s : RcState),
    rcWf s ops = true → 0 < s.live → s.destroys = 0 →
    (rcRun s ops).destroys = if (rcRun s ops).live = 0 then 1 else 0 := by
  intro ops
  induction ops with
  | nil =>
    intro s _ hl hd
    show s.destroys = if s.live = 0 then 1 else 0
    rw [if_neg (by omega)]
    exact hd
  | cons op ops ih =>
    intro s hwf hl hd
    have hwf2 : rcWf (rcStep s op) ops = true := by
      simp [rcWf] at hwf
      exact hwf.2
    show (rcRun (rcStep s op) ops).destroys =
      if (rcRun (rcStep s op) ops).live = 0 then 1 else 0
    cases op with
    | clone =>
      exact ih (rcStep s RcOp.clone) hwf2 (by simp [rcStep])
        (by simp [rcStep, hd])
    | drop =>
      by_cases h1 : s.live = 1
      · cases ops with
        | nil =>
          show (rcStep s RcOp.drop).destroys =
            if (rcStep s RcOp.drop).live = 0 then 1 else 0
          simp [rcStep, h1, hd]
        | cons op2 ops2 =>
          exfalso
          simp [rcWf, rcStep, h1] at hwf2
      · exact ih (rcStep s RcOp.drop) hwf2 (by simp [rcStep, h1]; omega)
          (by simp [rcStep, h1, hd])

/-- C6: starting from a single live Context, for every well-formed
sequence of clone and drop events (in any order, clones embedded in
Device values being clones like any other, destroy() being a drop),
exactly one native destroy call has happened once every clone is
dropped, and none has happened while any clone is still alive. -/
theorem context_single_destroy (ops : List RcOp)
    (h : rcWf (RcState.mk 1 0) ops = true) :
    ((rcRun (RcState.mk 1 0) ops).live = 0 →
      (rcRun (RcState.mk 1 0) ops).destroys = 1)
    ∧ (0 < (rcRun (RcState.mk 1 0) ops).live →
        (rcRun (RcState.mk 1 0) ops).destroys = 0) := by
  have hmain := rcRun_destroys ops (RcState.mk 1 0) h (by norm_num) rfl
  constructor
  · intro h0
    rw [hmain, if_pos h0]
  · intro hpos
    rw [hmain, if_neg (by omega)]

/-- C6 witness: two clones and three drops, dropped in an interleaved
order, end with exactly one destroy call. -/
theorem context_single_destroy_witness :
    rcWf (RcState.mk 1 0)
      [RcOp.clone, RcOp.drop, RcOp.clone, RcOp.drop, RcOp.drop] = true
    ∧ (rcRun (RcState.mk 1 0)
        [RcOp.clone, RcOp.drop, RcOp.clone, RcOp.drop, RcOp.drop]).destroys = 1 := by
  refine ⟨by decide, ?_⟩
  exact (context_single_destroy
    [RcOp.clone, RcOp.drop, RcOp.clone, RcOp.drop, RcOp.drop] (by decide)).1 (by decide)
